import Mathlib

/-
Verification development for the officeempire office-building simulation.

This file gives a shallow embedding of the simulation core:
  - the grid data model (src/app/components/game/types, consumed throughout),
  - the employee happiness system (src/app/utils/happinessSystem.ts),
  - the client system (src/app/utils/clientSystem.ts),
  - the employee system (src/app/utils/employeeSystem.ts),
  - the furniture registry (src/app/data/furniture.ts),
  - the level configuration (levels.ts),
  - the monthly economic tick, placement, hire and acquire handlers
    (GameBoard component in src/app/components/ui/EmployeePanel.tsx).

Machine numbers are modelled as Int (cash, happiness, revenue) and Nat
(counts, coordinates); JavaScript Math.random() draws are modelled as an
explicit stream of rationals consumed in source order.
-/

namespace OfficeEmpire

/-- Tile types of the grid cells (enum TileType in components/game/types). -/
inductive TileType where
  | grass
  | road
  | asphalt
  | tile
  | snow
  | building
deriving DecidableEq, Repr

/-- Cardinal orientations for rotatable items (enum Direction). -/
inductive Direction where
  | up
  | down
  | left
  | right
deriving DecidableEq, Repr

/-- One cell of the game grid (interface GridCell in components/game/types;
the fields are the ones read or written by the embedded handlers). -/
structure GridCell where
  type : TileType
  isOrigin : Bool := true
  originX : Option Nat := none
  originY : Option Nat := none
  buildingId : Option String := none
  buildingOrientation : Option Direction := none
  furnitureType : Option String := none
  assignedEmployeeId : Option String := none
  underlyingTileType : Option TileType := none
  capacity : Option Nat := none
deriving DecidableEq, Repr

/-- The game grid, indexed grid[y][x] exactly as in the source. -/
abbrev Grid := List (List GridCell)

/-- An employee (interface Employee). The random skill map and the optional
characterId live in the visual layer and are not read by any embedded
handler, so they are omitted here. -/
structure Employee where
  id : String
  name : String
  assignedDeskId : Option String
  salary : Int
  hireDate : Nat
  happiness : Int
deriving DecidableEq, Repr

/-- A client (interface Client). -/
structure Client where
  id : String
  name : String
  monthlyRevenue : Int
  startDate : Nat
deriving DecidableEq, Repr

/-- The economy snapshot (interface GameEconomy). -/
structure GameEconomy where
  cash : Int
  monthlyRevenue : Int
  monthlyExpenses : Int
  lastMonthTick : Nat
deriving DecidableEq, Repr

/-- Modelled from the spec: the grid dimension constants GRID_WIDTH and
GRID_HEIGHT are declared in components/game/types, which is not under src;
spec section 3 gives a fixed-size grid, e.g. 100 x 100. -/
def GRID_WIDTH : Nat := 100

/-- Modelled from the spec: see GRID_WIDTH. -/
def GRID_HEIGHT : Nat := 100

/-- Safe cell lookup grid[y][x]. -/
def cellAt (grid : Grid) (y x : Nat) : Option GridCell :=
  (grid.get? y).bind (fun row => row.get? x)

/-- Cell lookup with Int indices; a negative index is out of range, like a
negative JavaScript array index yielding undefined. -/
def cellAtI (grid : Grid) (y x : Int) : Option GridCell :=
  if y < 0 ∨ x < 0 then none else cellAt grid y.toNat x.toNat

/-- Update one cell of the grid in place, a no-op when out of range. -/
def setCellA (g : Grid) (y x : Nat) (f : GridCell → GridCell) : Grid :=
  match g.get? y with
  | none => g
  | some row =>
    match row.get? x with
    | none => g
    | some c => g.set y (row.set x (f c))

/- ----------------------------------------------------------------
Happiness system (src/app/utils/happinessSystem.ts)
---------------------------------------------------------------- -/

/-- The DESK_QUALITY_BONUS record of happinessSystem.ts, keyed exactly by
the strings that appear there. -/
def DESK_QUALITY_BONUS : String → Option Int
  | "desk-basic" => some 0
  | "desk-premium" => some 10
  | "desk-executive" => some 20
  | "desk-standing" => some 15
  | _ => none

/-- A bonus and radius pair for an amenity building. -/
structure AmenityConfig where
  bonus : Int
  range : Nat
deriving DecidableEq, Repr

/-- The AMENITY_BUILDINGS record of happinessSystem.ts. -/
def AMENITY_BUILDINGS : String → Option AmenityConfig
  | "coffee-machine" => some ⟨10, 10⟩
  | "break-area" => some ⟨15, 15⟩
  | "meeting-room" => some ⟨8, 12⟩
  | "water-cooler" => some ⟨5, 8⟩
  | "plant" => some ⟨3, 5⟩
  | _ => none

/-- The Euclidean range test calculateDistance(x1,y1,x2,y2) <= r of the
source, stated on squares: for integer coordinates and an integer radius,
sqrt(dx^2 + dy^2) <= r holds exactly when dx^2 + dy^2 <= r^2, so comparing
squares is the exact integer form of the floating-point comparison. -/
def withinRange (x1 y1 x2 y2 : Nat) (r : Nat) : Prop :=
  ((x2 : Int) - x1) ^ 2 + ((y2 : Int) - y1) ^ 2 ≤ (r : Int) ^ 2

instance (x1 y1 x2 y2 r : Nat) : Decidable (withinRange x1 y1 x2 y2 r) := by
  unfold withinRange; infer_instance

/-- An entry of the list built by findAmenities. -/
structure Amenity where
  x : Nat
  y : Nat
  buildingId : String
deriving DecidableEq, Repr

/-- findAmenities of happinessSystem.ts: every origin cell whose buildingId
is a key of AMENITY_BUILDINGS, in row-major scan order. -/
def findAmenities (grid : Grid) : List Amenity :=
  (grid.enum.map (fun p =>
    p.2.enum.filterMap (fun q =>
      match q.2.buildingId with
      | some bid =>
        if q.2.isOrigin && (AMENITY_BUILDINGS bid).isSome then
          some ⟨q.1, p.1, bid⟩
        else none
      | none => none))).flatten

/-- The amenity loop of calculateEmployeeHappiness: walk the amenity list,
adding each bonus at most once per buildingId, tracked by the applied set
(appliedBonuses in the source). The none branch is unreachable for lists
produced by findAmenities, whose entries all have a configuration; the
source indexes the record without a check there. -/
def amenityLoop (deskX deskY : Nat) :
    List Amenity → Int → List String → Int × List String
  | [], h, applied => (h, applied)
  | a :: rest, h, applied =>
    match AMENITY_BUILDINGS a.buildingId with
    | some cfg =>
      if withinRange deskX deskY a.x a.y cfg.range ∧ a.buildingId ∉ applied then
        amenityLoop deskX deskY rest (h + cfg.bonus) (a.buildingId :: applied)
      else
        amenityLoop deskX deskY rest h applied
    | none => amenityLoop deskX deskY rest h applied

/-- Character-level split on commas, the split(",") of the source,
written structurally so that it evaluates by kernel reduction. -/
def splitCommaAux : List Char → List Char → List String
  | [], acc => [String.mk acc.reverse]
  | ch :: rest, acc =>
    if ch = ',' then String.mk acc.reverse :: splitCommaAux rest []
    else splitCommaAux rest (ch :: acc)

/-- split(",") on a string. -/
def splitComma (s : String) : List String := splitCommaAux s.toList []

/-- Decimal digit accumulation for parseNat. -/
def parseNatAux : List Char → Nat → Option Nat
  | [], acc => some acc
  | ch :: rest, acc =>
    if ch.isDigit then parseNatAux rest (acc * 10 + (ch.toNat - 48)) else none

/-- Parse a nonempty all-digit string to a Nat, none otherwise. -/
def parseNat (s : String) : Option Nat :=
  match s.toList with
  | [] => none
  | l => parseNatAux l 0

/-- Parse an assignedDeskId string "x,y", as the destructured
split(",").map(Number) of the source. This models the JavaScript Number
conversion on the canonical decimal strings the program writes for desk
ids (template literals from integer coordinates); any string outside that
shape makes the subsequent grid lookup fail in the source and parses to
none here. -/
def parseDeskId (s : String) : Option (Nat × Nat) :=
  match splitComma s with
  | sx :: sy :: _ =>
    match parseNat sx, parseNat sy with
    | some x, some y => some (x, y)
    | _, _ => none
  | _ => none

/-- calculateEmployeeHappiness of happinessSystem.ts. -/
def calculateEmployeeHappiness (employee : Employee) (grid : Grid) : Int :=
  match employee.assignedDeskId with
  | none => 20
  | some deskId =>
    match parseDeskId deskId with
    | none => 20
    | some (deskX, deskY) =>
      match cellAt grid deskY deskX with
      | none => 20
      | some deskCell =>
        let base : Int := 50
        let withDesk := base +
          (match deskCell.buildingId with
           | some bid => (DESK_QUALITY_BONUS bid).getD 0
           | none => 0)
        let amenities := findAmenities grid
        let total := (amenityLoop deskX deskY amenities withDesk []).1
        max 0 (min 100 total)

/-- calculateAverageHappiness of happinessSystem.ts. Math.round of the
mean; for the nonnegative totals this program produces, Math.round(t/n)
equals (2*t + n) / (2*n) in integer division. -/
def calculateAverageHappiness (employees : List Employee) : Int :=
  if employees.length = 0 then 0
  else
    let total := (employees.map (·.happiness)).sum
    (2 * total + employees.length) / (2 * employees.length)

/-- calculateQuitProbability of happinessSystem.ts, as an exact rational. -/
def calculateQuitProbability (happiness : Int) : Rat :=
  if happiness ≥ 60 then 0
  else if happiness ≥ 40 then mkRat 1 20
  else if happiness ≥ 20 then mkRat 3 20
  else mkRat 3 10

/-- updateAllEmployeeHappiness of happinessSystem.ts. -/
def updateAllEmployeeHappiness (employees : List Employee) (grid : Grid) :
    List Employee :=
  employees.map (fun e => { e with happiness := calculateEmployeeHappiness e grid })

/- ----------------------------------------------------------------
Client system (src/app/utils/clientSystem.ts)
---------------------------------------------------------------- -/

/-- calculateMonthlyRevenue of clientSystem.ts. -/
def calculateMonthlyRevenue (clients : List Client) : Int :=
  (clients.map (·.monthlyRevenue)).sum

/-- The churn filter body of applyClientChurn: keep a client exactly when
its draw is strictly above the churn rate, drawing once per client in list
order. Returns the surviving clients and the next unused draw index. -/
def churnFilter (churnRate : Rat) (draws : Nat → Rat) :
    List Client → Nat → List Client × Nat
  | [], k => ([], k)
  | c :: rest, k =>
    let (tail, nextK) := churnFilter churnRate draws rest (k + 1)
    if draws k > churnRate then (c :: tail, nextK) else (tail, nextK)

/-- applyClientChurn of clientSystem.ts: understaffed offices (employees
below a third of the client count) churn at 20 percent, otherwise at the
5 percent baseline. -/
def applyClientChurn (clients : List Client) (employeeCount : Nat)
    (draws : Nat → Rat) (k : Nat) : List Client × Nat :=
  let isUnderstaffed := (employeeCount : Rat) < mkRat clients.length 3
  let churnRate : Rat := if isUnderstaffed then mkRat 1 5 else mkRat 1 20
  churnFilter churnRate draws clients k

/-- shouldAcquirePassiveClient of clientSystem.ts: with fewer than 5
employees no draw happens and the answer is false, otherwise one draw
against a 50 percent chance. -/
def shouldAcquirePassiveClient (employeeCount : Nat) (draws : Nat → Rat)
    (k : Nat) : Bool × Nat :=
  if employeeCount < 5 then (false, k)
  else (decide (draws k < mkRat 1 2), k + 1)

/- ----------------------------------------------------------------
Employee system (src/app/utils/employeeSystem.ts)
---------------------------------------------------------------- -/

/-- calculateMonthlySalaries of employeeSystem.ts. -/
def calculateMonthlySalaries (employees : List Employee) : Int :=
  (employees.map (·.salary)).sum

/-- Whether a cell is a free desk in the sense of findAvailableDesk:
furnitureType is the desk tag, no assigned employee, and an origin cell. -/
def isFreeDesk (c : GridCell) : Bool :=
  c.furnitureType == some "desk" && c.assignedEmployeeId == none && c.isOrigin

/-- Inner scan of one grid row, returning the first free desk column. -/
def findDeskInRow : List GridCell → Nat → Option Nat
  | [], _ => none
  | c :: rest, x => if isFreeDesk c then some x else findDeskInRow rest (x + 1)

/-- Row-by-row scan for findAvailableDesk. -/
def findAvailableDeskFrom : Grid → Nat → Option (Nat × Nat)
  | [], _ => none
  | row :: rest, y =>
    match findDeskInRow row 0 with
    | some x => some (x, y)
    | none => findAvailableDeskFrom rest (y + 1)

/-- findAvailableDesk of employeeSystem.ts: the first free desk origin cell
in row-major order, or none. -/
def findAvailableDesk (grid : Grid) : Option (Nat × Nat) :=
  findAvailableDeskFrom grid 0

/- ----------------------------------------------------------------
Monthly economic tick (GameBoard in EmployeePanel.tsx)
---------------------------------------------------------------- -/

/-- Count of origin desk cells, as computed inline by both tick paths:
grid.flat().filter(cell.furnitureType === "desk" && cell.isOrigin).length. -/
def deskCount (grid : Grid) : Nat :=
  (grid.flatten.filter (fun c => c.furnitureType == some "desk" && c.isOrigin)).length

/-- The per-desk monthly rent of both tick paths, 100 dollars. -/
def DESK_RENT : Int := 100

/-- The whole mutable game state owned by the GameBoard component. -/
structure GameState where
  grid : Grid
  employees : List Employee
  clients : List Client
  economy : GameEconomy
deriving DecidableEq, Repr

/-- The nondeterministic inputs of one tick: the Math.random() draws in the
order the handler consumes them, the client that generateClient would
return if passive acquisition fires (its internal draws are abstracted
into this value), and the Date.now() timestamp. -/
structure TickEnv where
  draws : Nat → Rat
  newClient : Client
  now : Nat

/-- Result of one tick: the new state and whether the bankruptcy game-over
signal fired (the transition to Paused plus the game-over modal). -/
structure TickOutcome where
  state : GameState
  bankruptcyFired : Bool

/-- Clear the desk assignment referenced by a quitting employee, as the
setGrid call inside the quit filter: parse the desk id and, when the cell
exists, unset assignedEmployeeId. -/
def clearDesk (grid : Grid) (deskId : String) : Grid :=
  match parseDeskId deskId with
  | none => grid
  | some (x, y) => setCellA grid y x (fun c => { c with assignedEmployeeId := none })

/-- The quit filter of the timer-driven tick: for each employee in order, a
quit probability from its (already recomputed) happiness; a draw is
consumed only when that probability is positive, mirroring the
short-circuit of quitChance > 0 && Math.random() < quitChance. A quitting
employee is dropped and its desk assignment cleared. -/
def quitTrials (draws : Nat → Rat) :
    List Employee → Nat → Grid → List Employee × Grid × Nat
  | [], k, g => ([], g, k)
  | e :: rest, k, g =>
    let q := calculateQuitProbability e.happiness
    if q > 0 then
      if draws k < q then
        let cleared :=
          match e.assignedDeskId with
          | some d => clearDesk g d
          | none => g
        quitTrials draws rest (k + 1) cleared
      else
        let (es, outG, outK) := quitTrials draws rest (k + 1) g
        (e :: es, outG, outK)
    else
      let (es, outG, outK) := quitTrials draws rest k g
      (e :: es, outG, outK)

/-- handleAdvanceMonth of EmployeePanel.tsx: the manual advance-now tick.
It updates the economy, applies client churn and passive acquisition, and
runs the bankruptcy check against the post-tick cash. It does not touch
employee happiness, quit trials, or the grid. -/
def handleAdvanceMonth (s : GameState) (env : TickEnv) : TickOutcome :=
  let revenue := calculateMonthlyRevenue s.clients
  let salaries := calculateMonthlySalaries s.employees
  let rent := (deskCount s.grid : Int) * DESK_RENT
  let expenses := salaries + rent
  let economyAfter : GameEconomy :=
    { cash := s.economy.cash + revenue - expenses
      monthlyRevenue := revenue
      monthlyExpenses := expenses
      lastMonthTick := env.now }
  let churned := applyClientChurn s.clients s.employees.length env.draws 0
  let acq := shouldAcquirePassiveClient s.employees.length env.draws churned.2
  let clientsAfter :=
    if acq.1 && decide (s.clients.length < 100) then churned.1 ++ [env.newClient]
    else churned.1
  let bankrupt :=
    decide (s.economy.cash + revenue - expenses < -expenses) && decide (expenses > 0)
  ⟨⟨s.grid, s.employees, clientsAfter, economyAfter⟩, bankrupt⟩

/-- The timer-driven monthly tick of the GameBoard interval effect. On top
of the economy, churn and acquisition steps it also recomputes every
employee happiness from the current grid and runs the quit trials; its
bankruptcy check reads economy.cash, the pre-tick balance captured by the
effect closure, not the post-tick balance. -/
def timerMonthTick (s : GameState) (env : TickEnv) : TickOutcome :=
  let revenue := calculateMonthlyRevenue s.clients
  let salaries := calculateMonthlySalaries s.employees
  let rent := (deskCount s.grid : Int) * DESK_RENT
  let expenses := salaries + rent
  let economyAfter : GameEconomy :=
    { cash := s.economy.cash + revenue - expenses
      monthlyRevenue := revenue
      monthlyExpenses := expenses
      lastMonthTick := env.now }
  let refreshed := updateAllEmployeeHappiness s.employees s.grid
  let quits := quitTrials env.draws refreshed 0 s.grid
  let churned := applyClientChurn s.clients s.employees.length env.draws quits.2.2
  let acq := shouldAcquirePassiveClient s.employees.length env.draws churned.2
  let clientsAfter :=
    if acq.1 && decide (s.clients.length < 100) then churned.1 ++ [env.newClient]
    else churned.1
  let bankrupt :=
    decide (s.economy.cash < -expenses) && decide (expenses > 0)
  ⟨⟨quits.2.1, quits.1, clientsAfter, economyAfter⟩, bankrupt⟩

/- ----------------------------------------------------------------
Furniture registry (src/app/data/furniture.ts)
---------------------------------------------------------------- -/

/-- One entry of the FURNITURE registry. The furnitureType strings are the
FurnitureType enum values of components/game/types, compared against the
string "desk" by the consumers in src. Sprites and icons are rendering
data and omitted. -/
structure FurnitureDefinition where
  id : String
  name : String
  category : String
  furnitureType : String
  width : Nat
  height : Nat
  cost : Int
  capacity : Option Nat := none
  supportsRotation : Bool := false
deriving DecidableEq, Repr

/-- The FURNITURE registry of furniture.ts, in declaration order. -/
def FURNITURE : List FurnitureDefinition :=
  [ ⟨"basic-desk", "Basic Desk", "desks", "desk", 1, 1, 500, none, false⟩
  , ⟨"premium-desk", "Premium Desk", "desks", "desk", 1, 1, 1000, none, false⟩
  , ⟨"executive-desk", "Executive Desk", "desks", "desk", 2, 1, 2000, none, false⟩
  , ⟨"standing-desk", "Standing Desk", "desks", "desk", 1, 1, 1500, none, false⟩
  , ⟨"small-meeting", "Small Meeting Room", "meeting_rooms", "meeting-room", 2, 2, 2000, some 4, false⟩
  , ⟨"large-meeting", "Large Meeting Room", "meeting_rooms", "meeting-room", 3, 3, 5000, some 10, false⟩
  , ⟨"conference-room", "Conference Room", "meeting_rooms", "meeting-room", 4, 3, 8000, some 20, false⟩
  , ⟨"coffee-station", "Coffee Station", "amenities", "break-area", 1, 1, 800, none, false⟩
  , ⟨"break-table", "Break Table", "amenities", "break-area", 2, 2, 1200, none, false⟩
  , ⟨"water-cooler", "Water Cooler", "amenities", "break-area", 1, 1, 400, none, false⟩
  , ⟨"office-plant", "Office Plant", "decor", "desk", 1, 1, 200, none, false⟩
  , ⟨"bookshelf", "Bookshelf", "decor", "desk", 1, 2, 400, none, false⟩
  , ⟨"filing-cabinet", "Filing Cabinet", "decor", "desk", 1, 1, 300, none, false⟩
  , ⟨"reception-desk", "Reception Desk", "decor", "reception", 2, 1, 1500, none, false⟩
  ]

/-- getFurniture of furniture.ts: lookup by id (record keys equal ids). -/
def getFurniture (id : String) : Option FurnitureDefinition :=
  FURNITURE.find? (·.id == id)

/- ----------------------------------------------------------------
Placement (handleTileClick, ToolType.Building branch, EmployeePanel.tsx)
---------------------------------------------------------------- -/

/-- The three item shapes the placement branch distinguishes: office
furniture (getFurniture hit), a decoration (getBuilding hit with category
"props" or the isDecoration flag), or a regular building. -/
inductive ItemKind where
  | furniture
  | decoration
  | regularBuilding
deriving DecidableEq, Repr

/-- A placeable item as the placement branch consumes it: the id, its kind,
the orientation-adjusted footprint (the source computes it from the
registry and the current orientation before validating), the cost, and the
registry fields copied onto cells. Regular buildings and decorations come
from the buildings registry, which is not under src; their footprint and
flags enter through this record (spec section 6 external registry
interface). -/
structure PlaceableItem where
  id : String
  kind : ItemKind
  width : Nat
  height : Nat
  cost : Int
  furnitureType : Option String := none
  capacity : Option Nat := none
  supportsRotation : Bool := false
deriving DecidableEq, Repr

/-- The failure taxonomy of a placement attempt. The source fails by a
silent break; the spec names the conditions OutOfBounds and
SurfaceCollision, and the insufficient-funds modal precedes both. -/
inductive PlaceResult where
  | success
  | insufficientFunds
  | outOfBounds
  | surfaceCollision
deriving DecidableEq, Repr

/-- Outcome of a placement attempt on the grid and the cash balance. -/
structure PlaceOutcome where
  grid : Grid
  cash : Int
  result : PlaceResult
deriving DecidableEq, Repr

/-- The accepted surface set per item kind: furniture only on office floor
tiles, decorations on grass, tile or snow, regular buildings only on
grass. -/
def acceptsSurface (kind : ItemKind) (t : TileType) : Bool :=
  match kind with
  | .furniture => t == TileType.tile
  | .decoration => t == TileType.grass || t == TileType.tile || t == TileType.snow
  | .regularBuilding => t == TileType.grass

/-- The collision scan of the placement branch: some covered cell, guarded
by px < GRID_WIDTH and py < GRID_HEIGHT as in the source loop, has a type
outside the accepted surface set. A missing cell contributes no collision;
the source would fault reading its type, which cannot happen on the full
rectangular grids the component owns. -/
def hasCollision (grid : Grid) (kind : ItemKind) (ax ay : Int) (w h : Nat) : Bool :=
  (List.range h).any (fun dy => (List.range w).any (fun dx =>
    if ax + dx < (GRID_WIDTH : Int) ∧ ay + dy < (GRID_HEIGHT : Int) then
      match cellAtI grid (ay + dy) (ax + dx) with
      | some c => !(acceptsSurface kind c.type)
      | none => false
    else false))

/-- The per-cell write of the placement loop. For decorations the current
surface type is preserved in underlyingTileType; furniture copies its
furnitureType and (when truthy) capacity onto the cell; rotation is stored
when the item supports it. -/
def placeWrite (item : PlaceableItem) (ax ay dx dy : Nat) (dir : Direction)
    (c : GridCell) : GridCell :=
  { c with
    type := TileType.building
    buildingId := some item.id
    isOrigin := dx == 0 && dy == 0
    originX := some ax
    originY := some ay
    underlyingTileType :=
      if item.kind == ItemKind.decoration then some c.type else c.underlyingTileType
    furnitureType :=
      if item.kind == ItemKind.furniture then item.furnitureType else c.furnitureType
    capacity :=
      if item.kind == ItemKind.furniture && item.capacity.isSome then item.capacity
      else c.capacity
    buildingOrientation :=
      if item.supportsRotation then some dir else c.buildingOrientation }

/-- The write loop of the placement branch, with the same in-bounds guard
as the source. -/
def writeFootprint (g : Grid) (item : PlaceableItem) (ax ay : Nat)
    (dir : Direction) : Grid :=
  (List.range item.height).foldl (fun g1 dy =>
    (List.range item.width).foldl (fun g2 dx =>
      if ax + dx < GRID_WIDTH ∧ ay + dy < GRID_HEIGHT then
        setCellA g2 (ay + dy) (ax + dx) (placeWrite item ax ay dx dy dir)
      else g2) g1) g

/-- The ToolType.Building branch of handleTileClick: cost pre-check for
furniture, anchor at (x - w + 1, y - h + 1), bounds check, collision scan,
and only then the footprint write and the cost deduction. -/
def handleTileClickBuilding (grid : Grid) (cash : Int) (item : PlaceableItem)
    (x y : Nat) (dir : Direction) : PlaceOutcome :=
  if item.kind == ItemKind.furniture && decide (cash < item.cost) then
    ⟨grid, cash, .insufficientFunds⟩
  else
    let ax : Int := (x : Int) - item.width + 1
    let ay : Int := (y : Int) - item.height + 1
    if ax < 0 ∨ ay < 0 ∨ ax + item.width > GRID_WIDTH ∨ ay + item.height > GRID_HEIGHT then
      ⟨grid, cash, .outOfBounds⟩
    else if hasCollision grid item.kind ax ay item.width item.height then
      ⟨grid, cash, .surfaceCollision⟩
    else
      let placed := writeFootprint grid item ax.toNat ay.toNat dir
      let cashAfter :=
        if item.kind == ItemKind.furniture then cash - item.cost else cash
      ⟨placed, cashAfter, .success⟩

/- ----------------------------------------------------------------
Hire and acquire handlers (EmployeePanel.tsx)
---------------------------------------------------------------- -/

/-- The hiring cost constant of handleHireEmployee. -/
def HIRING_COST : Int := 5000

/-- The marketing cost constant of handleAcquireClient. -/
def MARKETING_COST : Int := 1000

/-- Result taxonomy of a hire attempt. -/
inductive HireResult where
  | success
  | noDeskAvailable
  | insufficientFunds
deriving DecidableEq, Repr

/-- Outcome of a hire attempt over the state it can mutate. -/
structure HireOutcome where
  grid : Grid
  employees : List Employee
  economy : GameEconomy
  result : HireResult
deriving DecidableEq, Repr

/-- handleHireEmployee of EmployeePanel.tsx. The desk check runs first,
then the funds check; on success the fresh employee (the generateEmployee
output, salary 5000, passed in because its id and name are random) is
assigned the desk, the desk cell records the employee id, and the hiring
cost is deducted. -/
def handleHireEmployee (grid : Grid) (employees : List Employee)
    (economy : GameEconomy) (freshEmployee : Employee) : HireOutcome :=
  match findAvailableDesk grid with
  | none => ⟨grid, employees, economy, .noDeskAvailable⟩
  | some (dx, dy) =>
    if economy.cash < HIRING_COST then
      ⟨grid, employees, economy, .insufficientFunds⟩
    else
      let hired := { freshEmployee with
        assignedDeskId := some (toString dx ++ "," ++ toString dy) }
      let gridAfter :=
        setCellA grid dy dx (fun c => { c with assignedEmployeeId := some hired.id })
      ⟨gridAfter, employees ++ [hired],
        { economy with cash := economy.cash - HIRING_COST }, .success⟩

/-- Result taxonomy of a client acquisition attempt. -/
inductive AcquireResult where
  | success
  | insufficientFunds
  | maxClientsReached
deriving DecidableEq, Repr

/-- Outcome of a client acquisition attempt. -/
structure AcquireOutcome where
  clients : List Client
  economy : GameEconomy
  result : AcquireResult
deriving DecidableEq, Repr

/-- handleAcquireClient of EmployeePanel.tsx: funds check, 100-client cap
check, then immediate marketing cost deduction and the new client (the
generateClient output, passed in because it is random) appended. -/
def handleAcquireClient (clients : List Client) (economy : GameEconomy)
    (newClient : Client) : AcquireOutcome :=
  if economy.cash < MARKETING_COST then
    ⟨clients, economy, .insufficientFunds⟩
  else if clients.length ≥ 100 then
    ⟨clients, economy, .maxClientsReached⟩
  else
    ⟨clients ++ [newClient],
      { economy with cash := economy.cash - MARKETING_COST }, .success⟩

/- ----------------------------------------------------------------
Levels and the victory check (levels.ts, GameBoard victory effect)
---------------------------------------------------------------- -/

/-- The goals of one level (interface LevelConfig). -/
structure LevelGoals where
  employees : Nat
  clients : Nat
  happiness : Option Int := none
deriving DecidableEq, Repr

/-- One level configuration. -/
structure LevelConfig where
  id : String
  name : String
  goals : LevelGoals
deriving DecidableEq, Repr

/-- The LEVELS table of levels.ts (the three-level version with the
optional happiness goal on level 3). -/
def LEVELS : List LevelConfig :=
  [ ⟨"level_1", "Level 1: The Startup", ⟨10, 20, none⟩⟩
  , ⟨"level_2", "Level 2: The Enterprise", ⟨10, 20, none⟩⟩
  , ⟨"level_3", "Level 3: The Growing Firm", ⟨20, 40, some 65⟩⟩
  ]

/-- getLevel of levels.ts. -/
def getLevel (id : String) : Option LevelConfig :=
  LEVELS.find? (·.id == id)

/-- The victory effect of the GameBoard: when not paused and the level
exists, victory fires exactly when the employee and client counts reach
their goals and the happiness goal, when set, is reached by the average
happiness. The JavaScript guard !currentLevel.goals.happiness is falsy for
an absent goal and for a goal of 0, so a zero goal counts as unset. -/
def victoryCheck (isPaused : Bool) (levelId : String)
    (employees : List Employee) (clients : List Client) : Bool :=
  if isPaused then false
  else
    match getLevel levelId with
    | none => false
    | some lvl =>
      let avgHappiness := calculateAverageHappiness employees
      let employeeGoalMet := decide (employees.length ≥ lvl.goals.employees)
      let clientGoalMet := decide (clients.length ≥ lvl.goals.clients)
      let happinessGoalMet :=
        match lvl.goals.happiness with
        | none => true
        | some g => decide (g = 0) || decide (avgHappiness ≥ g)
      employeeGoalMet && clientGoalMet && happinessGoalMet

/- ----------------------------------------------------------------
Concrete states used to instantiate the theorems below
---------------------------------------------------------------- -/

/-- A state with negative cash and one salaried employee: expenses 100,
revenue 0, so the post-tick cash is -150, strictly below -expenses. -/
def c2State : GameState :=
  { grid := []
    employees := [⟨"emp_1", "Ada Crane", none, 100, 0, 75⟩]
    clients := []
    economy := ⟨-50, 0, 0, 0⟩ }

/-- Draws of 1 (nobody quits, no churn) and an unused fresh client. -/
def c2Env : TickEnv := ⟨fun _ => 1, ⟨"client_1", "TechCorp", 3000, 0⟩, 5⟩

/-- A state with one deskless employee of happiness 75 and no clients. -/
def c3State : GameState :=
  { grid := []
    employees := [⟨"emp_1", "Bo Reed", none, 5000, 0, 75⟩]
    clients := []
    economy := ⟨20000, 0, 0, 0⟩ }

/-- Draws of 0: any positive quit probability fires. -/
def c3Env : TickEnv := ⟨fun _ => 0, ⟨"client_1", "DataFlow Inc", 2500, 0⟩, 7⟩

/-- A desk cell holding the registry premium desk. -/
def c4DeskCell : GridCell :=
  { type := .building, buildingId := some "premium-desk", furnitureType := some "desk" }

/-- A one-cell grid holding only the registry premium desk. -/
def c4Grid : Grid := [[c4DeskCell]]

/-- An employee assigned to the premium desk at (0,0). -/
def c4Employee : Employee := ⟨"emp_1", "Cy Vale", some "0,0", 5000, 0, 75⟩

/-- A basic desk cell for the amenity scenarios. -/
def c5DeskCell : GridCell :=
  { type := .building, buildingId := some "basic-desk", furnitureType := some "desk" }

/-- A water cooler cell; water-cooler is both a registry id and an
AMENITY_BUILDINGS key (bonus 5, radius 8). -/
def c5CoolerCell : GridCell :=
  { type := .building, buildingId := some "water-cooler", furnitureType := some "break-area" }

/-- A plain grass cell. -/
def c5GrassCell : GridCell := { type := .grass }

/-- Desk at (0,0) and two identical water coolers at (1,0) and (2,0),
both within radius 8 of the desk. -/
def c5GridTwo : Grid := [[c5DeskCell, c5CoolerCell, c5CoolerCell]]

/-- The same office with a single water cooler. -/
def c5GridOne : Grid := [[c5DeskCell, c5CoolerCell, c5GrassCell]]

/-- The employee sitting at the desk at (0,0). -/
def c5Employee : Employee := ⟨"emp_1", "Di Wu", some "0,0", 5000, 0, 75⟩

/-- A one-cell all-grass grid: furniture placement on it must collide. -/
def c6GrassGrid : Grid := [[c5GrassCell]]

/-- The registry basic desk as a placeable furniture item (footprint 1 x 1,
cost 500). -/
def c6DeskItem : PlaceableItem :=
  ⟨"basic-desk", .furniture, 1, 1, 500, some "desk", none, false⟩

/-- A fresh generateEmployee output for a hire attempt. -/
def c7Fresh : Employee := ⟨"emp_9", "Gil Ash", none, 5000, 0, 75⟩

/-- An economy with plenty of cash for a hire attempt on a deskless grid. -/
def c7Econ : GameEconomy := ⟨100000, 0, 0, 0⟩

/-- An employee with happiness 75, for the victory witness roster. -/
def c8Employee : Employee := ⟨"emp_1", "Hale Finch", none, 5000, 0, 75⟩

/-- A client for the victory witness roster. -/
def c8Client : Client := ⟨"client_1", "Apex Analytics", 2600, 0⟩

/-- The level 3 configuration, as resolved by getLevel "level_3". -/
def c8Level : LevelConfig := ⟨"level_3", "Level 3: The Growing Firm", ⟨20, 40, some 65⟩⟩

/-- A one-desk grid for the end-to-end scenario. -/
def c9Grid : Grid := [[c5DeskCell]]

/-- The hired employee of the scenario: salary 5000 per month. -/
def c9Fresh : Employee := ⟨"emp_1", "Fay Orr", none, 5000, 0, 75⟩

/-- The scenario starting economy: 20000 dollars, nothing booked yet. -/
def c9Econ : GameEconomy := ⟨20000, 0, 0, 0⟩

/-- First acquired client, 3000 dollars per month (inside 2000 to 5000). -/
def c9ClientA : Client := ⟨"client_1", "CloudSync Solutions", 3000, 0⟩

/-- Second acquired client, 3000 dollars per month. -/
def c9ClientB : Client := ⟨"client_2", "Digital Dynamics", 3000, 0⟩

/-- Scenario step 1: hire one employee at the free desk. -/
def c9AfterHire : HireOutcome := handleHireEmployee c9Grid [] c9Econ c9Fresh

/-- Scenario step 2: acquire the first client. -/
def c9AfterFirst : AcquireOutcome :=
  handleAcquireClient [] c9AfterHire.economy c9ClientA

/-- Scenario step 3: acquire the second client. -/
def c9AfterSecond : AcquireOutcome :=
  handleAcquireClient c9AfterFirst.clients c9AfterFirst.economy c9ClientB

/-- The state assembled after the three scenario steps. -/
def c9StateAfter : GameState :=
  ⟨c9AfterHire.grid, c9AfterHire.employees, c9AfterSecond.clients,
    c9AfterSecond.economy⟩

/-- The month-end tick of the scenario (draws of 1: no churn, no quits). -/
def c9MonthEnd : TickOutcome :=
  handleAdvanceMonth c9StateAfter ⟨fun _ => 1, ⟨"client_3", "Nova Networks", 2000, 0⟩, 9⟩

/-- An employee whose desk reference points far outside the grid. -/
def c10Employee : Employee := ⟨"emp_1", "Ivo Marsh", some "999,999", 5000, 0, 75⟩

/-- A one-desk grid that cell (999,999) is far outside of. -/
def c10Grid : Grid := [[c5DeskCell]]

/- ----------------------------------------------------------------
Theorems
---------------------------------------------------------------- -/

/-- C1: on every monthly tick, manual or timer-driven, the new cash balance
is exactly the old balance plus revenue minus expenses, where revenue is
the sum of the monthly revenues of all clients and expenses are the sum of
all salaries plus the count of origin desk cells times the fixed per-desk
rent. -/
theorem tick_cash_conservation (s : GameState) (env : TickEnv) :
    (handleAdvanceMonth s env).state.economy.cash =
      s.economy.cash + calculateMonthlyRevenue s.clients -
        (calculateMonthlySalaries s.employees + (deskCount s.grid : Int) * DESK_RENT)
    ∧ (timerMonthTick s env).state.economy.cash =
      s.economy.cash + calculateMonthlyRevenue s.clients -
        (calculateMonthlySalaries s.employees + (deskCount s.grid : Int) * DESK_RENT) :=
  ⟨rfl, rfl⟩

/-- C2: the two tick paths disagree on the bankruptcy check. In c2State the
expenses are 100 and the post-tick cash is -150, strictly below -expenses
with positive expenses, so by the claim both paths must signal bankruptcy;
the manual handler does, but the timer-driven tick compares the pre-tick
cash (-50) against -expenses and stays silent. -/
theorem bankruptcy_check_divergence :
    (c2State.economy.cash + calculateMonthlyRevenue c2State.clients -
        (calculateMonthlySalaries c2State.employees +
          (deskCount c2State.grid : Int) * DESK_RENT) = -150)
    ∧ (calculateMonthlySalaries c2State.employees +
        (deskCount c2State.grid : Int) * DESK_RENT = 100)
    ∧ ((-150 : Int) < -100)
    ∧ ((100 : Int) > 0)
    ∧ (handleAdvanceMonth c2State c2Env).bankruptcyFired = true
    ∧ (timerMonthTick c2State c2Env).bankruptcyFired = false := by
  decide

/-- C3 counterexample: from the same starting state and the same draw
stream the manual and the timer-driven tick produce different post-tick
states: the timer path recomputes the deskless employee happiness to 20
and the quit trial fires at draw 0, while the manual path never runs
either step and keeps the roster. -/
theorem tick_paths_differ :
    (handleAdvanceMonth c3State c3Env).state.employees = c3State.employees
    ∧ (timerMonthTick c3State c3Env).state.employees = []
    ∧ (handleAdvanceMonth c3State c3Env).state ≠ (timerMonthTick c3State c3Env).state := by
  decide

/-- C3 amended: the manual advance-now tick performs the same economy
update as the timer-driven tick, but it leaves the employees and the grid
untouched: it recomputes no happiness and runs no quit trials. -/
theorem manual_tick_shared_economy (s : GameState) (env : TickEnv) :
    (handleAdvanceMonth s env).state.employees = s.employees
    ∧ (handleAdvanceMonth s env).state.grid = s.grid
    ∧ (handleAdvanceMonth s env).state.economy = (timerMonthTick s env).state.economy :=
  ⟨rfl, rfl, rfl⟩

/-- C4: an employee at a desk placed from the furniture registry gets no
desk-quality bonus. The registry premium desk has id "premium-desk",
which is not a key of DESK_QUALITY_BONUS (its keys are of the form
"desk-premium"), so the computed happiness is the bare base 50 and not
the 50 + 10 the claim requires. -/
theorem desk_bonus_key_mismatch :
    calculateEmployeeHappiness c4Employee c4Grid = 50
    ∧ (getFurniture "premium-desk").isSome = true
    ∧ (getFurniture "premium-desk").map (·.furnitureType) = some "desk"
    ∧ DESK_QUALITY_BONUS "premium-desk" = none
    ∧ DESK_QUALITY_BONUS "desk-premium" = some 10
    ∧ calculateEmployeeHappiness c4Employee c4Grid ≠ 60 := by
  decide

/-- C10: a dangling desk reference is handled defensively: when the
assignedDeskId string does not parse to coordinates, or parses to
coordinates with no cell in the grid, calculateEmployeeHappiness returns
exactly 20, the no-desk value. -/
theorem dangling_desk_defensive (e : Employee) (grid : Grid) (s : String)
    (hid : e.assignedDeskId = some s)
    (h : parseDeskId s = none ∨
      ∃ x y, parseDeskId s = some (x, y) ∧ cellAt grid y x = none) :
    calculateEmployeeHappiness e grid = 20 := by
  rcases h with h | ⟨x, y, hp, hc⟩
  · simp [calculateEmployeeHappiness, hid, h]
  · simp [calculateEmployeeHappiness, hid, hp, hc]

/-- Witness for C10: the desk reference "999,999" points outside the
one-desk grid and yields happiness 20. -/
theorem dangling_desk_defensive_witness :
    calculateEmployeeHappiness c10Employee c10Grid = 20 :=
  dangling_desk_defensive c10Employee c10Grid "999,999" rfl
    (Or.inr ⟨999, 999, by decide, by decide⟩)

/-- Unfolding of the amenity loop at a head with a configuration. -/
theorem amenityLoop_cons_some (deskX deskY : Nat) (a : Amenity)
    (L : List Amenity) (h : Int) (applied : List String) (cfg : AmenityConfig)
    (hcfg : AMENITY_BUILDINGS a.buildingId = some cfg) :
    amenityLoop deskX deskY (a :: L) h applied =
      if withinRange deskX deskY a.x a.y cfg.range ∧ a.buildingId ∉ applied then
        amenityLoop deskX deskY L (h + cfg.bonus) (a.buildingId :: applied)
      else amenityLoop deskX deskY L h applied := by
  simp only [amenityLoop, hcfg]

/-- The applied set only grows along the amenity loop. -/
theorem amenityLoop_mem_applied (deskX deskY : Nat) (L : List Amenity) :
    ∀ (h : Int) (applied : List String) (s : String),
      s ∈ applied → s ∈ (amenityLoop deskX deskY L h applied).2 := by
  induction L with
  | nil => intro h applied s hs; exact hs
  | cons a rest ih =>
    intro h applied s hs
    cases hcfg : AMENITY_BUILDINGS a.buildingId with
    | none => simpa only [amenityLoop, hcfg] using ih h applied s hs
    | some cfg =>
      rw [amenityLoop_cons_some _ _ _ _ _ _ _ hcfg]
      split
      · exact ih _ _ s (List.mem_cons_of_mem _ hs)
      · exact ih h applied s hs

/-- An amenity whose buildingId is already in the applied set is skipped. -/
theorem amenityLoop_skip (deskX deskY : Nat) (a : Amenity) (L : List Amenity)
    (h : Int) (applied : List String) (hmem : a.buildingId ∈ applied) :
    amenityLoop deskX deskY (a :: L) h applied =
      amenityLoop deskX deskY L h applied := by
  cases hcfg : AMENITY_BUILDINGS a.buildingId with
  | none => simp only [amenityLoop, hcfg]
  | some cfg =>
    rw [amenityLoop_cons_some _ _ _ _ _ _ _ hcfg, if_neg]
    intro hcond
    exact hcond.2 hmem

/-- The amenity loop over an appended list runs the two parts in order. -/
theorem amenityLoop_append (deskX deskY : Nat) (L M : List Amenity) :
    ∀ (h : Int) (applied : List String),
      amenityLoop deskX deskY (L ++ M) h applied =
        amenityLoop deskX deskY M (amenityLoop deskX deskY L h applied).1
          (amenityLoop deskX deskY L h applied).2 := by
  induction L with
  | nil => intro h applied; rfl
  | cons a rest ih =>
    intro h applied
    cases hcfg : AMENITY_BUILDINGS a.buildingId with
    | none =>
      simp only [List.cons_append, amenityLoop, hcfg]
      exact ih h applied
    | some cfg =>
      simp only [List.cons_append]
      rw [amenityLoop_cons_some _ _ _ _ _ _ _ hcfg,
          amenityLoop_cons_some _ _ _ _ _ _ _ hcfg]
      split
      · exact ih _ _
      · exact ih h applied

/-- Dropping an amenity whose buildingId is already applied changes
nothing, wherever it sits in the remaining list. -/
theorem amenityLoop_drop_dup (deskX deskY : Nat) (M N : List Amenity)
    (b : Amenity) (h : Int) (applied : List String)
    (hmem : b.buildingId ∈ applied) :
    amenityLoop deskX deskY (M ++ b :: N) h applied =
      amenityLoop deskX deskY (M ++ N) h applied := by
  rw [amenityLoop_append, amenityLoop_append,
      amenityLoop_skip _ _ _ _ _ _ (amenityLoop_mem_applied _ _ M _ _ _ hmem)]

/-- Dropping a later duplicate of an in-range amenity changes nothing:
once the first instance has been reached, its buildingId is in the
applied set for the rest of the loop. -/
theorem amenityLoop_dup (deskX deskY : Nat) (L1 L2 L3 : List Amenity)
    (a b : Amenity) (cfg : AmenityConfig)
    (hbid : b.buildingId = a.buildingId)
    (hcfg : AMENITY_BUILDINGS a.buildingId = some cfg)
    (hrange : withinRange deskX deskY a.x a.y cfg.range)
    (h : Int) (applied : List String) :
    amenityLoop deskX deskY (L1 ++ a :: (L2 ++ b :: L3)) h applied =
      amenityLoop deskX deskY (L1 ++ a :: (L2 ++ L3)) h applied := by
  rw [amenityLoop_append, amenityLoop_append,
      amenityLoop_cons_some _ _ _ _ _ _ _ hcfg,
      amenityLoop_cons_some _ _ _ _ _ _ _ hcfg]
  by_cases hc : withinRange deskX deskY a.x a.y cfg.range ∧
      a.buildingId ∉ (amenityLoop deskX deskY L1 h applied).2
  · rw [if_pos hc, if_pos hc]
    refine amenityLoop_drop_dup _ _ L2 L3 b _ _ ?_
    rw [hbid]
    exact List.mem_cons_self _ _
  · rw [if_neg hc, if_neg hc]
    refine amenityLoop_drop_dup _ _ L2 L3 b _ _ ?_
    rw [hbid]
    by_contra hnot
    exact hc ⟨hrange, hnot⟩

/-- C5: amenity bonuses never stack per type. If the amenity scans of two
grids differ only in one extra amenity b whose buildingId equals that of
an amenity a already present and within range of the desk of employee e,
and e resolves to the same desk cell in both grids, then the computed
happiness is identical: the bonus of that amenity type is added at most
once. -/
theorem amenity_single_count
    (e : Employee) (gTwo gOne : Grid) (s : String) (x y : Nat) (c : GridCell)
    (L1 L2 L3 : List Amenity) (a b : Amenity) (cfg : AmenityConfig)
    (hid : e.assignedDeskId = some s)
    (hparse : parseDeskId s = some (x, y))
    (hcellTwo : cellAt gTwo y x = some c)
    (hcellOne : cellAt gOne y x = some c)
    (hfaTwo : findAmenities gTwo = L1 ++ a :: (L2 ++ b :: L3))
    (hfaOne : findAmenities gOne = L1 ++ a :: (L2 ++ L3))
    (hbid : b.buildingId = a.buildingId)
    (hcfg : AMENITY_BUILDINGS a.buildingId = some cfg)
    (hrange : withinRange x y a.x a.y cfg.range) :
    calculateEmployeeHappiness e gTwo = calculateEmployeeHappiness e gOne := by
  simp only [calculateEmployeeHappiness, hid, hparse, hcellTwo, hcellOne,
    hfaTwo, hfaOne]
  rw [amenityLoop_dup x y L1 L2 L3 a b cfg hbid hcfg hrange]

/-- Witness for C5: two identical water coolers at (1,0) and (2,0), both
in range of the desk at (0,0), give the same happiness as a single one. -/
theorem amenity_single_count_witness :
    calculateEmployeeHappiness c5Employee c5GridTwo =
      calculateEmployeeHappiness c5Employee c5GridOne :=
  amenity_single_count c5Employee c5GridTwo c5GridOne "0,0" 0 0 c5DeskCell
    [] [] [] ⟨1, 0, "water-cooler"⟩ ⟨2, 0, "water-cooler"⟩ ⟨5, 8⟩
    rfl (by decide) (by decide) (by decide) (by decide) (by decide)
    rfl rfl (by decide)

/-- C7: a hire attempt with no free desk reports NoDeskAvailable, a hire
attempt with a free desk but cash below the hiring cost reports
InsufficientFunds, and in both failure cases the grid, the roster and the
economy are returned unchanged. -/
theorem hire_failure_no_mutation (grid : Grid) (employees : List Employee)
    (economy : GameEconomy) (fresh : Employee) :
    (findAvailableDesk grid = none →
      handleHireEmployee grid employees economy fresh =
        ⟨grid, employees, economy, .noDeskAvailable⟩)
    ∧ (∀ d, findAvailableDesk grid = some d → economy.cash < HIRING_COST →
        handleHireEmployee grid employees economy fresh =
          ⟨grid, employees, economy, .insufficientFunds⟩)
    ∧ (((handleHireEmployee grid employees economy fresh).result = .noDeskAvailable ∨
        (handleHireEmployee grid employees economy fresh).result = .insufficientFunds) →
        (handleHireEmployee grid employees economy fresh).grid = grid ∧
        (handleHireEmployee grid employees economy fresh).employees = employees ∧
        (handleHireEmployee grid employees economy fresh).economy = economy) := by
  refine ⟨?_, ?_, ?_⟩
  · intro h
    simp [handleHireEmployee, h]
  · rintro ⟨dx, dy⟩ h hc
    simp [handleHireEmployee, h, hc]
  · intro h
    cases hd : findAvailableDesk grid with
    | none => simp [handleHireEmployee, hd]
    | some d =>
      obtain ⟨dx, dy⟩ := d
      by_cases hc : economy.cash < HIRING_COST
      · simp [handleHireEmployee, hd, hc]
      · exfalso
        rcases h with h | h <;> simp [handleHireEmployee, hd, hc] at h

/-- Witness for C7: on a deskless grid the hire attempt fails with
NoDeskAvailable, and with a free desk but only 1000 dollars it fails with
InsufficientFunds; both leave the state unchanged. -/
theorem hire_failure_no_mutation_witness :
    handleHireEmployee [] [] c7Econ c7Fresh = ⟨[], [], c7Econ, .noDeskAvailable⟩
    ∧ handleHireEmployee c9Grid [] ⟨1000, 0, 0, 0⟩ c7Fresh =
        ⟨c9Grid, [], ⟨1000, 0, 0, 0⟩, .insufficientFunds⟩ :=
  ⟨(hire_failure_no_mutation [] [] c7Econ c7Fresh).1 rfl,
   (hire_failure_no_mutation c9Grid [] ⟨1000, 0, 0, 0⟩ c7Fresh).2.1 (0, 0)
     (by decide) (by decide)⟩

/-- The average happiness of a roster of nonnegative happiness values is
nonnegative. -/
theorem calculateAverageHappiness_nonneg (employees : List Employee)
    (h : ∀ e ∈ employees, 0 ≤ e.happiness) :
    0 ≤ calculateAverageHappiness employees := by
  unfold calculateAverageHappiness
  split
  · exact le_refl 0
  · have htot : 0 ≤ (employees.map (·.happiness)).sum := by
      apply List.sum_nonneg
      intro i hi
      obtain ⟨e, he, rfl⟩ := List.mem_map.mp hi
      exact h e he
    apply Int.ediv_nonneg <;> omega

/-- C8: when the game is running and the level exists, the victory signal
fires exactly when the employee count reaches the employee goal, the
client count reaches the client goal, and either the level has no
happiness goal or the average happiness reaches it. The hypothesis that
every happiness value is nonnegative is an invariant of the program:
stored happiness is 75 at generation and clamped to [0,100] afterwards. -/
theorem victory_check_iff (levelId : String) (lvl : LevelConfig)
    (employees : List Employee) (clients : List Client)
    (hlvl : getLevel levelId = some lvl)
    (hpos : ∀ e ∈ employees, 0 ≤ e.happiness) :
    (victoryCheck false levelId employees clients = true ↔
      (employees.length ≥ lvl.goals.employees ∧
       clients.length ≥ lvl.goals.clients ∧
       (lvl.goals.happiness = none ∨
        ∃ g, lvl.goals.happiness = some g ∧
          calculateAverageHappiness employees ≥ g))) := by
  cases hg : lvl.goals.happiness with
  | none => simp [victoryCheck, hlvl, hg]
  | some g =>
    by_cases hg0 : g = 0
    · subst hg0
      have havg := calculateAverageHappiness_nonneg employees hpos
      simp [victoryCheck, hlvl, hg, havg, and_assoc]
    · simp [victoryCheck, hlvl, hg, hg0, and_assoc]

/-- Witness for C8: on level 3 (goals 20 employees, 40 clients, happiness
65) a roster of 20 employees of happiness 75 and 40 clients fires the
victory signal. -/
theorem victory_check_iff_witness :
    victoryCheck false "level_3" (List.replicate 20 c8Employee)
      (List.replicate 40 c8Client) = true :=
  (victory_check_iff "level_3" c8Level (List.replicate 20 c8Employee)
      (List.replicate 40 c8Client) (by decide) (by decide)).mpr
    ⟨by decide, by decide, Or.inr ⟨65, rfl, by decide⟩⟩

/-- C9 counterexample: in the end-to-end scenario the two marketing
acquisitions cost 1000 dollars each, not 2000, so the cash after the
immediate deductions is 13000 and not the 11000 the claim computes. -/
theorem scenario_marketing_cost_counterexample :
    c9AfterSecond.economy.cash = 13000
    ∧ (20000 - 5000 - 2000 * 2 : Int) = 11000
    ∧ c9AfterSecond.economy.cash ≠ 20000 - 5000 - 2000 * 2 := by
  decide

/-- C9 amended: starting from 20000 dollars, hiring one employee (5000)
and acquiring two clients (marketing cost 1000 each) deducts the hiring
and marketing costs immediately, leaving 20000 - 5000 - 1000 x 2 = 13000,
with no revenue or expenses booked before month-end; the next month-end
then applies cash + revenue - (salaries + rent) exactly. -/
theorem scenario_immediate_deductions :
    c9AfterHire.result = .success
    ∧ c9AfterFirst.result = .success
    ∧ c9AfterSecond.result = .success
    ∧ MARKETING_COST = 1000
    ∧ c9AfterSecond.economy.cash = 20000 - 5000 - 1000 * 2
    ∧ c9AfterSecond.economy.monthlyRevenue = 0
    ∧ c9AfterSecond.economy.monthlyExpenses = 0
    ∧ c9MonthEnd.state.economy.cash =
        c9AfterSecond.economy.cash + calculateMonthlyRevenue c9StateAfter.clients -
          (calculateMonthlySalaries c9StateAfter.employees +
            (deskCount c9StateAfter.grid : Int) * DESK_RENT)
    ∧ c9MonthEnd.state.economy.cash = 13900 := by
  decide

/-- The collision scan finds a bad cell exactly when some covered cell
exists and has a type outside the accepted surface set, provided the
anchored footprint lies inside the grid bounds. -/
theorem hasCollision_iff (grid : Grid) (kind : ItemKind) (ax ay : Int)
    (w h : Nat)
    (hw : ax + w ≤ (GRID_WIDTH : Int)) (hh : ay + h ≤ (GRID_HEIGHT : Int)) :
    (hasCollision grid kind ax ay w h = true ↔
      ∃ dx dy, dx < w ∧ dy < h ∧
        ∃ c, cellAtI grid (ay + dy) (ax + dx) = some c ∧
          acceptsSurface kind c.type = false) := by
  unfold hasCollision
  simp only [List.any_eq_true, List.mem_range]
  constructor
  · rintro ⟨dy, hdy, dx, hdx, hf⟩
    rw [if_pos (by constructor <;> omega)] at hf
    cases hcell : cellAtI grid (ay + dy) (ax + dx) with
    | none => rw [hcell] at hf; exact absurd hf (by simp)
    | some c =>
      rw [hcell] at hf
      refine ⟨dx, dy, hdx, hdy, c, hcell, ?_⟩
      simpa using hf
  · rintro ⟨dx, dy, hdx, hdy, c, hcell, hacc⟩
    refine ⟨dy, hdy, dx, hdx, ?_⟩
    rw [if_pos (by constructor <;> omega), hcell]
    simp [hacc]

/-- C6: placement anchors the footprint at (x - w + 1, y - h + 1) and
validates completely before writing. OutOfBounds fires exactly when the
anchored footprint leaves the grid, SurfaceCollision exactly when it fits
but covers a cell whose type is outside the accepted surface set
(furniture: Tile; decorations: Grass, Tile or Snow; regular buildings:
Grass), and on either failure neither the grid nor the cash changes. -/
theorem placement_precheck (grid : Grid) (cash : Int) (item : PlaceableItem)
    (x y : Nat) (dir : Direction) :
    (((handleTileClickBuilding grid cash item x y dir).result = .outOfBounds ∨
      (handleTileClickBuilding grid cash item x y dir).result = .surfaceCollision) →
      (handleTileClickBuilding grid cash item x y dir).grid = grid ∧
      (handleTileClickBuilding grid cash item x y dir).cash = cash)
    ∧ ((handleTileClickBuilding grid cash item x y dir).result = .outOfBounds ↔
        ¬(item.kind = .furniture ∧ cash < item.cost) ∧
        ((x : Int) - item.width + 1 < 0 ∨ (y : Int) - item.height + 1 < 0 ∨
         (x : Int) - item.width + 1 + item.width > GRID_WIDTH ∨
         (y : Int) - item.height + 1 + item.height > GRID_HEIGHT))
    ∧ ((handleTileClickBuilding grid cash item x y dir).result = .surfaceCollision ↔
        ¬(item.kind = .furniture ∧ cash < item.cost) ∧
        ¬((x : Int) - item.width + 1 < 0 ∨ (y : Int) - item.height + 1 < 0 ∨
          (x : Int) - item.width + 1 + item.width > GRID_WIDTH ∨
          (y : Int) - item.height + 1 + item.height > GRID_HEIGHT) ∧
        ∃ dx dy, dx < item.width ∧ dy < item.height ∧
          ∃ c, cellAtI grid ((y : Int) - item.height + 1 + dy)
                 ((x : Int) - item.width + 1 + dx) = some c ∧
            acceptsSurface item.kind c.type = false)
    ∧ (∀ t, acceptsSurface .furniture t = true ↔ t = .tile)
    ∧ (∀ t, acceptsSurface .decoration t = true ↔
        (t = .grass ∨ t = .tile ∨ t = .snow))
    ∧ (∀ t, acceptsSurface .regularBuilding t = true ↔ t = .grass) := by
  have hsurf1 : ∀ t, acceptsSurface .furniture t = true ↔ t = .tile := by
    intro t; cases t <;> simp [acceptsSurface]
  have hsurf2 : ∀ t, acceptsSurface .decoration t = true ↔
      (t = .grass ∨ t = .tile ∨ t = .snow) := by
    intro t; cases t <;> simp [acceptsSurface]
  have hsurf3 : ∀ t, acceptsSurface .regularBuilding t = true ↔ t = .grass := by
    intro t; cases t <;> simp [acceptsSurface]
  by_cases hf : item.kind = ItemKind.furniture ∧ cash < item.cost
  · have hb : (item.kind == ItemKind.furniture && decide (cash < item.cost)) = true := by
      simp [hf.1, hf.2]
    refine ⟨?_, ?_, ?_, hsurf1, hsurf2, hsurf3⟩ <;>
      simp [handleTileClickBuilding, hb, hf]
  · have hb : (item.kind == ItemKind.furniture && decide (cash < item.cost)) = false := by
      by_cases h1 : item.kind = ItemKind.furniture
      · have h2 : ¬ cash < item.cost := fun h2 => hf ⟨h1, h2⟩
        simp [h1, h2]
      · simp [h1]
    by_cases hob : ((x : Int) - item.width + 1 < 0 ∨ (y : Int) - item.height + 1 < 0 ∨
        (x : Int) - item.width + 1 + item.width > GRID_WIDTH ∨
        (y : Int) - item.height + 1 + item.height > GRID_HEIGHT)
    · refine ⟨?_, ?_, ?_, hsurf1, hsurf2, hsurf3⟩ <;>
        simp [handleTileClickBuilding, hb, hf, hob]
    · have hiff := hasCollision_iff grid item.kind
        ((x : Int) - item.width + 1) ((y : Int) - item.height + 1)
        item.width item.height (by omega) (by omega)
      by_cases hcol : hasCollision grid item.kind
          ((x : Int) - item.width + 1) ((y : Int) - item.height + 1)
          item.width item.height = true
      · refine ⟨?_, ?_, ?_, hsurf1, hsurf2, hsurf3⟩
        · simp [handleTileClickBuilding, hb, hob, hcol]
        · simp [handleTileClickBuilding, hb, hf, hob, hcol]
        · simp [handleTileClickBuilding, hb, hf, hob, hcol]
          obtain ⟨dx, dy, h1, h2, c, hc, ha⟩ := hiff.mp hcol
          exact ⟨dx, h1, dy, h2, c, hc, ha⟩
      · have hcolf : hasCollision grid item.kind
            ((x : Int) - item.width + 1) ((y : Int) - item.height + 1)
            item.width item.height = false := by
          simpa using hcol
        refine ⟨?_, ?_, ?_, hsurf1, hsurf2, hsurf3⟩
        · simp [handleTileClickBuilding, hb, hob, hcolf]
        · simp [handleTileClickBuilding, hb, hf, hob, hcolf]
        · simp [handleTileClickBuilding, hb, hf, hob, hcolf]
          intro dx h1 dy h2 c hc
          by_contra hacc
          exact hcol (hiff.mpr ⟨dx, dy, h1, h2, c, hc, by simpa using hacc⟩)

/-- Witness for C6: placing the registry basic desk on a grass cell
collides (furniture needs office floor) and mutates neither the grid nor
the cash. -/
theorem placement_precheck_witness :
    (handleTileClickBuilding c6GrassGrid 1000 c6DeskItem 0 0 .down).result =
      .surfaceCollision
    ∧ (handleTileClickBuilding c6GrassGrid 1000 c6DeskItem 0 0 .down).grid =
      c6GrassGrid
    ∧ (handleTileClickBuilding c6GrassGrid 1000 c6DeskItem 0 0 .down).cash = 1000 :=
  ⟨by decide,
   ((placement_precheck c6GrassGrid 1000 c6DeskItem 0 0 .down).1 (Or.inr (by decide))).1,
   ((placement_precheck c6GrassGrid 1000 c6DeskItem 0 0 .down).1 (Or.inr (by decide))).2⟩

end OfficeEmpire
